import Mathlib

/-!
Shallow embedding of the `tabone/blockchain` sources: `src/queued-data.js`,
`src/block.js`, `src/index.js` and the offloaded hash-search worker.

Modelling conventions:
* JavaScript numbers are modelled as exact integers (`Int`/`Nat`); none of the
  verified properties depends on IEEE-754 rounding, and `String(number)` is
  modelled as the decimal rendering `toString`.
* `SHA256` (node's `crypto` module) is an external collaborator; every
  definition that hashes takes it as an explicit function `String → String`
  producing the hex digest.
* Random id generation (`crypto.randomBytes(...).toString('hex')`) and
  `Date.now()` are external; the freshly generated id and the current time are
  passed in as explicit arguments (`genId`, `now`).
* Absent object fields (JS `undefined`) are `Option.none`; a thrown JS
  assertion or `Error` is `Except.error`.
* The asynchronous `process.nextTick` hash search is modelled as a separate
  function `generateHash` applied to the created block, with an explicit fuel
  bound on the number of nonce attempts (fuel exhaustion stands for a search
  that has not finished yet).
-/

/-- Opaque JS payload values as they are observed by this code base: either a
primitive rendered by `String(...)`, or an object whose `id`/`data` fields may
be read by destructuring (`createQueuedData({ id, data })`). -/
inductive Payload where
  | str : String → Payload
  | objEmpty : Option String → Payload
  | objData : Option String → Payload → Payload
deriving DecidableEq, Repr

/-- Property access `p.id` used by the destructuring in `createQueuedData`:
`undefined` (none) unless the payload is an object carrying the field. -/
def payloadId : Payload → Option String
  | Payload.str _ => none
  | Payload.objEmpty i => i
  | Payload.objData i _ => i

/-- Property access `p.data` used by the destructuring in `createQueuedData`. -/
def payloadData : Payload → Option Payload
  | Payload.str _ => none
  | Payload.objEmpty _ => none
  | Payload.objData _ d => some d

/-- JS `String(x)` applied to a possibly-absent payload: `String(undefined)`
is the text `undefined`, and `String({...})` is `[object Object]`. -/
def jsStringOf : Option Payload → String
  | none => "undefined"
  | some (Payload.str s) => s
  | some (Payload.objEmpty _) => "[object Object]"
  | some (Payload.objData _ _) => "[object Object]"

/-- JS `x || d` for an optional string `x`: the empty string is falsy. -/
def jsOrStr (x : Option String) (d : String) : String :=
  match x with
  | none => d
  | some s => if s = "" then d else s

/-- JS `x || d` for an optional number `x`: `0` is falsy. -/
def jsOrInt (x : Option Int) (d : Int) : Int :=
  match x with
  | none => d
  | some v => if v = 0 then d else v

/-- JS `x || null` for an optional string `x` (used for `opts.hash`):
absent and empty strings both collapse to `null` (none). -/
def jsOrNullStr (x : Option String) : Option String :=
  match x with
  | none => none
  | some s => if s = "" then none else some s

/-- A Queued Data object (`src/queued-data.js`): a stable id paired with the
payload read from the caller's options object. -/
structure QueuedData where
  id : String
  data : Option Payload
deriving DecidableEq, Repr

/-- The options object accepted by `createQueuedData({ id, data })`. -/
structure QDOpts where
  id : Option String
  data : Option Payload
deriving DecidableEq, Repr

/-- `createQueuedData` from `src/queued-data.js`: destructures `{ id, data }`,
defaults the id to a freshly generated token (`id || crypto.randomBytes(...)`,
the generated token passed here as `genId`) and wraps the payload unchanged.
The source performs no validation of `data`. -/
def createQueuedData (genId : String) (o : QDOpts) : QueuedData :=
  { id := jsOrStr o.id genId, data := o.data }

/-- Block states from `block-states.js`: INITIALIZING = 0, READY = 1,
ABORTED = 2. -/
inductive BlockState where
  | INITIALIZING
  | READY
  | ABORTED
deriving DecidableEq, Repr

/-- A Block's internal field bag (`src/block.js`, the `_` object). -/
structure Block where
  data : QueuedData
  index : Int
  difficulty : Int
  previousHash : String
  nonce : Int
  hash : Option String
  date : Int
  state : BlockState
deriving DecidableEq, Repr

/-- The options object accepted by `createBlock` in `src/block.js`. -/
structure BlockOpts where
  data : Option Payload
  index : Option Int
  difficulty : Option Int
  previousHash : Option String
  nonce : Option Int
  hash : Option String
  date : Option Int
deriving DecidableEq, Repr

/-- `createBlock` from `src/block.js`: asserts (loosely, `!= null`) that
`data`, `index`, `difficulty` and `previousHash` are present, wraps the raw
payload through `queuedData(opts.data)` (which destructures the payload's own
`id`/`data` fields), defaults `nonce` to `-1`, `hash` to `null` and `date` to
`Date.now()` via JS `||`, and starts every block in the INITIALIZING state.
The scheduled asynchronous hash search is the separate `generateHash` below. -/
def createBlock (genId : String) (now : Int) (o : BlockOpts) : Except String Block :=
  match o.data, o.index, o.difficulty, o.previousHash with
  | some p, some i, some d, some ph =>
      Except.ok
        { data := createQueuedData genId { id := payloadId p, data := payloadData p }
          index := i
          difficulty := d
          previousHash := ph
          nonce := jsOrInt o.nonce (-1)
          hash := jsOrNullStr o.hash
          date := jsOrInt o.date now
          state := BlockState.INITIALIZING }
  | _, _, _, _ => Except.error "required field missing"

/-- A hex digit's value, used to model JS `parseInt(str, 16)`. -/
def hexDigit? (c : Char) : Option Nat :=
  if '0' ≤ c ∧ c ≤ '9' then some (c.toNat - '0'.toNat)
  else if 'a' ≤ c ∧ c ≤ 'f' then some (c.toNat - 'a'.toNat + 10)
  else if 'A' ≤ c ∧ c ≤ 'F' then some (c.toNat - 'A'.toNat + 10)
  else none

/-- Accumulate the value of the longest hex-digit prefix. -/
def parseHexAux : List Char → Nat → Nat
  | [], acc => acc
  | c :: cs, acc =>
      match hexDigit? c with
      | some d => parseHexAux cs (acc * 16 + d)
      | none => acc

/-- JS `parseInt(s, 16)` restricted to the digest strings this code feeds it:
the value of the longest leading hex-digit prefix, `none` standing for `NaN`
when the string does not start with a hex digit (no whitespace, sign or `0x`
handling, which never occurs on a hex digest). -/
def parseHexNat (s : String) : Option Nat :=
  match s.data with
  | [] => none
  | c :: _ =>
      match hexDigit? c with
      | none => none
      | some _ => some (parseHexAux s.data 0)

/-- JS `v <= d` where `v` may be `NaN` (none): any comparison with NaN is
false. -/
def jsLE (v : Option Nat) (d : Int) : Bool :=
  match v with
  | none => false
  | some n => decide ((n : Int) ≤ d)

/-- JS `v > d` where `v` may be `NaN` (none): any comparison with NaN is
false. -/
def jsGT (v : Option Nat) (d : Int) : Bool :=
  match v with
  | none => false
  | some n => decide ((n : Int) > d)

/-- The hash-search prefix built in `generateHash` (`src/block.js`): the
concatenation `String(index) + String(difficulty) + String(previousHash) +
String(data.id) + String(data.data) + String(date)`, nonce excluded. -/
def searchSigniture (b : Block) : String :=
  toString b.index ++ toString b.difficulty ++ b.previousHash ++ b.data.id ++
    jsStringOf b.data.data ++ toString b.date

/-- The full signature hashed by the Block's `valid` getter: the search prefix
followed by `String(nonce)`. -/
def blockSigniture (b : Block) : String :=
  searchSigniture b ++ toString b.nonce

/-- The Block's `valid` getter (`getValid` in `src/block.js`): recompute the
SHA256 digest of the signature including the stored nonce and require both
that it equals the stored hash (`hash === this._.hash`, false when the stored
hash is `null`) and that `parseInt(hash, 16) <= difficulty`. -/
def blockGetValid (sha256 : String → String) (b : Block) : Bool :=
  let hash := sha256 (blockSigniture b)
  decide (b.hash = some hash) && jsLE (parseHexNat hash) b.difficulty

/-- The proof-of-work loop body of `generateHash` (`src/block.js`) and of the
offloaded worker: pre-increment the nonce, hash the signature plus the nonce,
and keep looping while `parseInt(hash, 16) > difficulty` (a `NaN` digest
compares false and is therefore accepted). `fuel` bounds the number of
attempts modelled; `none` stands for a search that is still running. The
source also re-checks the block's state between attempts (cooperative abort);
no concurrent abort occurs within one modelled run. -/
def powSearch (sha256 : String → String) (sig : String) (d : Int) :
    Nat → Int → Option (Int × String)
  | 0, _ => none
  | fuel + 1, nonce =>
      if jsGT (parseHexNat (sha256 (sig ++ toString (nonce + 1)))) d then
        powSearch sha256 sig d fuel (nonce + 1)
      else some (nonce + 1, sha256 (sig ++ toString (nonce + 1)))

/-- `generateHash` from `src/block.js`: if the block already carries a hash the
function returns at once and never schedules the search; otherwise the search
runs from the block's current nonce and, on success, stores the found hash and
nonce and moves the block to READY (`changeState`, which emits `ready`). -/
def generateHash (sha256 : String → String) (fuel : Nat) (b : Block) : Block :=
  if b.hash.isSome then b
  else
    match powSearch sha256 (searchSigniture b) b.difficulty fuel b.nonce with
    | some (n, h) => { b with nonce := n, hash := some h, state := BlockState.READY }
    | none => b

/-- `abort` from `src/block.js`: in the INITIALIZING state move to ABORTED
(emitting `aborted`); in any other state only an `error` event is emitted and
the block is unchanged. -/
def blockAbort (b : Block) : Block :=
  if b.state = BlockState.INITIALIZING then { b with state := BlockState.ABORTED }
  else b

/-- The default proof-of-work difficulty (`DIFFICULTY` in `src/index.js`). -/
def DIFFICULTY : Int :=
  1766847064778384329583297500742918515827483896875618958121606201292619775

/-- The Blockchain's internal state (`src/index.js`, the `_` object): the
committed chain, the FIFO queue of Queued Data, the block currently being
initialized (paired with the Queued Data object captured by the closure of
`constructNextBlock`), and the active difficulty. -/
structure ChainState where
  chain : List Block
  queue : List QueuedData
  block : Option (Block × QueuedData)
  difficulty : Int
deriving DecidableEq, Repr

/-- `createBlockchain` from `src/index.js`: empty chain and queue, no block in
flight, and difficulty `opts.difficulty || DIFFICULTY`. -/
def createBlockchain (optsDifficulty : Option Int) : ChainState :=
  { chain := [], queue := [], block := none,
    difficulty := jsOrInt optsDifficulty DIFFICULTY }

/-- The chain's `valid` getter (`getValid` in `src/index.js`): true exactly
when `find` locates no block whose own `valid` getter is false. -/
def chainGetValid (sha256 : String → String) (c : List Block) : Bool :=
  (c.find? fun b => blockGetValid sha256 b == false).isNone

/-- The `previousHash` passed to the next constructed block
(`constructNextBlock` in `src/index.js`): the empty string for the genesis
block, otherwise `this.latestBlock.hash`. -/
def nextPreviousHash (st : ChainState) : Option String :=
  if st.chain.length = 0 then some "" else st.chain.getLast?.bind Block.hash

/-- `setDifficulty` from `src/index.js`: throw a type error unless the value
is a number, otherwise replace the stored difficulty. -/
inductive JsValue where
  | num : Int → JsValue
  | str : String → JsValue
  | boolean : Bool → JsValue
  | nullV : JsValue
  | undef : JsValue
deriving DecidableEq, Repr

/-- The `difficulty` setter of the blockchain object. An `Except.error` models
the thrown `Error`, leaving the caller with the unchanged prior state. -/
def setDifficulty (st : ChainState) (v : JsValue) : Except String ChainState :=
  match v with
  | JsValue.num n => Except.ok { st with difficulty := n }
  | _ => Except.error "proof of work difficulty should be a number"

/-- `constructNextBlock` from `src/index.js`: do nothing while a block is in
flight; with an empty queue only emit `waiting`; otherwise shift the queue
head, create a block for it (index = next index, current difficulty, previous
hash of the latest block) and record it, with the shifted Queued Data object,
as the block being initialized. An `Except.error` models the assertion thrown
out of `createBlock`. Event emissions carry no state and are omitted. -/
def constructNextBlock (genId : String) (now : Int) (st : ChainState) :
    Except String ChainState :=
  if st.block.isSome then Except.ok st
  else
    match st.queue with
    | [] => Except.ok st
    | qd :: rest =>
        (createBlock genId now
            { data := qd.data
              index := some (st.chain.length : Int)
              difficulty := some st.difficulty
              previousHash := nextPreviousHash st
              nonce := none
              hash := none
              date := none }).map
          fun b => { st with queue := rest, block := some (b, qd) }

/-- `enqueueData` from `src/index.js`: wrap the options in a Queued Data
object, push it on the queue, emit `enqueue-data` and call
`constructNextBlock`. -/
def enqueueData (genId genId2 : String) (now : Int) (st : ChainState)
    (o : QDOpts) : Except String ChainState :=
  constructNextBlock genId2 now
    { st with queue := st.queue ++ [createQueuedData genId o] }

/-- The blockchain's `abort` together with the `aborted` listener installed by
`constructNextBlock` (`src/index.js`): when a block is being initialized,
`block.abort()` moves it to ABORTED and the listener unshifts the captured
Queued Data object back onto the queue head and clears the block slot, without
calling `constructNextBlock` again. When the block is past INITIALIZING,
`block.abort()` only emits an error and nothing changes; with no block in
flight the call is a no-op. -/
def chainAbort (st : ChainState) : ChainState :=
  match st.block with
  | none => st
  | some (b, qd) =>
      if b.state = BlockState.INITIALIZING then
        { st with queue := qd :: st.queue, block := none }
      else st

/-- Modelled from the spec: `addBlock(blockFields, correspondingEntryId)` is
described in the specification (section 4.3) but absent from the source files
under `src/` (the blockchain object exposes only `abort`, `resume`,
`enqueueData` and `toJSON`). Following the spec's words: construct a Block
from the externally supplied fields (already solved, hash provided); validate
it with the shared rule (the block's own validity, `index ==
committed.length`, `previousHash` equal to the expected previous hash); if
invalid return false leaving the Chain unchanged; if valid abort any in-flight
construction (its entry returned to the queue head as per normal abort
semantics), commit the block, remove the matching pending entry by id, resume
construction, and return true. -/
def addBlock (sha256 : String → String) (genId genId2 : String) (now : Int)
    (st : ChainState) (fields : BlockOpts) (entryId : String) :
    Except String (Bool × ChainState) :=
  match createBlock genId now fields with
  | Except.error e => Except.error e
  | Except.ok b =>
      if blockGetValid sha256 b && decide (b.index = (st.chain.length : Int)) &&
          decide (some b.previousHash = nextPreviousHash st) then
        let st1 := chainAbort st
        let st2 := { st1 with
          chain := st1.chain ++ [b]
          queue := st1.queue.filter fun q => q.id != entryId }
        (constructNextBlock genId2 now st2).map fun s => (true, s)
      else Except.ok (false, st)

/-- Formalisation of the specification's sentence for the chain-level validity
check (written from the spec's words, to be compared with `chainGetValid`
taken from the source): every position `i` passes the block-level check, has
`index == i`, and has `previousHash` equal to the prior block's hash (the
empty string for `i = 0`). -/
def chainValidPerSpec (sha256 : String → String) (c : List Block) : Bool :=
  c.enum.all fun p =>
    blockGetValid sha256 p.2 && decide (p.2.index = (p.1 : Int)) &&
      decide ((if p.1 = 0 then some "" else (c.get? (p.1 - 1)).bind Block.hash) =
        some p.2.previousHash)

/-- A request arriving at the offloaded hash-search worker after JSON
decoding. -/
structure WorkerRequest where
  signiture : Option String
  difficulty : Option Int
deriving DecidableEq, Repr

/-- The empty object `{}` as a worker request: every field absent. -/
def emptyRequest : WorkerRequest := { signiture := none, difficulty := none }

/-- `parseJSON` from the worker source: `JSON.parse` wrapped in `try`/`catch`,
returning the empty object when parsing throws. `JSON.parse` itself is
external and passed in as `parse`. -/
def parseJSON (parse : String → Except String WorkerRequest) (s : String) :
    WorkerRequest :=
  match parse s with
  | Except.ok r => r
  | Except.error _ => emptyRequest

/-- The ways the worker's message handler can fail: a propagated JSON decoding
error (never produced, thanks to `parseJSON`), or the thrown
`assert.notEqual(payload.signiture, null)`. -/
inductive WorkerFailure where
  | parseFailure : String → WorkerFailure
  | assertionFailure : WorkerFailure
deriving DecidableEq, Repr

/-- The worker's `process.on('message')` handler: base64-decode (external,
passed as `decode`), parse through `parseJSON`, assert the signature field,
default an absent (`== null`) difficulty to `DIFFICULTY`, then run the same
proof-of-work loop as `generateHash` starting from nonce `-1`. `Except.ok
none` stands for a search still running within the modelled fuel. -/
def workerOnMessage (parse : String → Except String WorkerRequest)
    (decode : String → String) (sha256 : String → String) (fuel : Nat)
    (encodedPayload : String) : Except WorkerFailure (Option (String × Int)) :=
  let payload := parseJSON parse (decode encodedPayload)
  match payload.signiture with
  | none => Except.error WorkerFailure.assertionFailure
  | some sig =>
      let d := match payload.difficulty with
        | none => DIFFICULTY
        | some v => v
      match powSearch sha256 sig d fuel (-1) with
      | some (n, h) => Except.ok (some (h, n))
      | none => Except.ok none

/-! Concrete sample values used by counterexamples and witnesses. -/

/-- A stand-in for the external SHA256 collaborator in concrete evaluations:
every digest is the hex string 00 (numeric value 0). -/
def sampleSha : String → String := fun _ => "00"

/-- A Queued Data object for the entry with id X and payload P. -/
def qdA : QueuedData := { id := "X", data := some (Payload.str "P") }

/-- The block `constructNextBlock` creates for `qdA` on an empty chain with
difficulty 9 (generated id gb, creation time 7). -/
def bA : Block :=
  { data := { id := "gb", data := none }, index := 0, difficulty := 9,
    previousHash := "", nonce := -1, hash := none, date := 7,
    state := BlockState.INITIALIZING }

/-- The chain state with the construction of `bA` for `qdA` in flight. -/
def stA : ChainState :=
  { chain := [], queue := [], block := some (bA, qdA), difficulty := 9 }

/-- A block that passes its own `valid` check under `sampleSha` but sits at
position 0 with `index = 5` and `previousHash = "xyz"`. -/
def c1block : Block :=
  { data := { id := "i", data := none }, index := 5, difficulty := 0,
    previousHash := "xyz", nonce := -1, hash := some "00", date := 7,
    state := BlockState.READY }

/-- Options supplying a pre-solved hash to `createBlock`. -/
def c2opts : BlockOpts :=
  { data := some (Payload.str "p"), index := some 0, difficulty := some 5,
    previousHash := some "", nonce := none, hash := some "abc", date := some 3 }

/-- The block `createBlock` returns for `c2opts`. -/
def c2block : Block :=
  { data := { id := "g", data := none }, index := 0, difficulty := 5,
    previousHash := "", nonce := -1, hash := some "abc", date := 3,
    state := BlockState.INITIALIZING }

/-- Options for a fresh block mined at the maximum 256-bit difficulty. -/
def c7opts : BlockOpts :=
  { data := some (Payload.str "p"), index := some 0,
    difficulty := some (2 ^ 256 - 1), previousHash := some "", nonce := none,
    hash := none, date := some 3 }

/-- The block `createBlock` returns for `c7opts`. -/
def c7block : Block :=
  { data := { id := "g", data := none }, index := 0,
    difficulty := 2 ^ 256 - 1, previousHash := "", nonce := -1, hash := none,
    date := 3, state := BlockState.INITIALIZING }

/-- Options like `c7opts` but with a supplied nonce of 3 and no hash. -/
def c7xopts : BlockOpts :=
  { data := some (Payload.str "p"), index := some 0,
    difficulty := some (2 ^ 256 - 1), previousHash := some "",
    nonce := some 3, hash := none, date := some 1 }

/-- The block `createBlock` returns for `c7xopts`. -/
def c7xblock : Block :=
  { data := { id := "g", data := none }, index := 0,
    difficulty := 2 ^ 256 - 1, previousHash := "", nonce := 3, hash := none,
    date := 1, state := BlockState.INITIALIZING }

/-- An empty chain used to exercise `addBlock`. -/
def stW6 : ChainState := createBlockchain (some 9)

/-- Externally supplied block fields whose index (1) is not the next index of
`stW6` (0). -/
def fields6 : BlockOpts :=
  { data := some (Payload.str "p"), index := some 1, difficulty := some 9,
    previousHash := some "", nonce := none, hash := some "00", date := some 3 }

/-- The block `createBlock` returns for `fields6`. -/
def b6 : Block :=
  { data := { id := "g", data := none }, index := 1, difficulty := 9,
    previousHash := "", nonce := -1, hash := some "00", date := 3,
    state := BlockState.INITIALIZING }

/-- A Queued Data object waiting in the queue of `stW8`. -/
def qdW8 : QueuedData := { id := "q", data := some (Payload.str "P") }

/-- An idle chain with one queued entry and difficulty 0. -/
def stW8 : ChainState :=
  { chain := [], queue := [qdW8], block := none, difficulty := 0 }

/-- A JSON decoder that always throws, standing for `JSON.parse` applied to a
malformed request payload. -/
def parseBad : String → Except String WorkerRequest :=
  fun _ => Except.error "unexpected token"

/-- Helper: the fields a successfully created block always receives from
`createBlock`. -/
theorem createBlock_ok_fields (genId : String) (now : Int) (o : BlockOpts)
    (b : Block) (hc : createBlock genId now o = Except.ok b) :
    b.nonce = jsOrInt o.nonce (-1) ∧ b.hash = jsOrNullStr o.hash ∧
      b.state = BlockState.INITIALIZING ∧ b.date = jsOrInt o.date now := by
  unfold createBlock at hc
  split at hc
  · injection hc with hb
    subst hb
    exact ⟨rfl, rfl, rfl, rfl⟩
  · exact Except.noConfusion hc

/-- C1, counterexample: the chain-level `valid` getter accepts a chain whose
single block passes its own check but has `index = 5` and `previousHash =
"xyz"` at position 0, while the specification's formalised condition
(`chainValidPerSpec`) rejects it — so `chainGetValid` is not equivalent to the
claimed per-position index and linkage check. -/
theorem chain_getValid_ignores_linkage_cex :
    chainGetValid sampleSha [c1block] = true ∧
      chainValidPerSpec sampleSha [c1block] = false :=
  ⟨rfl, rfl⟩

/-- C1 (amended): the chain-level `valid` getter returns true iff every
committed block passes its own block-level `valid` check; it performs no
index-position or previous-hash linkage checks. -/
theorem chain_getValid_iff_blocks_valid (sha256 : String → String)
    (c : List Block) :
    chainGetValid sha256 c = true ↔ ∀ b ∈ c, blockGetValid sha256 b = true := by
  unfold chainGetValid
  rw [Option.isNone_iff_eq_none, List.find?_eq_none]
  constructor
  · intro h b hb
    have h2 := h b hb
    simpa using h2
  · intro h b hb
    simp [h b hb]

/-- C2, counterexample: a block created with a supplied hash is returned in
the INITIALIZING state, not READY. -/
theorem createBlock_supplied_hash_cex :
    (createBlock "g" 3 c2opts).map Block.state =
        Except.ok BlockState.INITIALIZING ∧
      BlockState.INITIALIZING ≠ BlockState.READY :=
  ⟨rfl, by decide⟩

/-- C2 (amended): for every call to `createBlock` in which a (truthy) hash
value is supplied, the returned block carries that hash but remains in the
INITIALIZING state, and no proof-of-work search is started for it
(`generateHash` returns it unchanged for any fuel). -/
theorem createBlock_supplied_hash_no_search (genId : String) (now : Int)
    (o : BlockOpts) (h : String) (b : Block) (sha256 : String → String)
    (fuel : Nat) (hh : o.hash = some h) (hne : h ≠ "")
    (hc : createBlock genId now o = Except.ok b) :
    b.state = BlockState.INITIALIZING ∧ b.hash = some h ∧
      generateHash sha256 fuel b = b := by
  obtain ⟨-, hbh, hbs, -⟩ := createBlock_ok_fields genId now o b hc
  rw [hh] at hbh
  have hhash : b.hash = some h := by
    rw [hbh]
    simp [jsOrNullStr, hne]
  refine ⟨hbs, hhash, ?_⟩
  unfold generateHash
  rw [hhash]
  rfl

/-- C3: the block-level `valid` getter returns true iff the recomputed digest
of the full signature (including the stored nonce) equals the stored hash and
that digest, read as an unsigned integer, is at most the difficulty; moreover
the check is independent of the block's state (and, being a pure function of
the block's fields, has no side effects). -/
theorem block_getValid_characterization (sha256 : String → String)
    (b : Block) :
    (blockGetValid sha256 b = true ↔
      (b.hash = some (sha256 (blockSigniture b)) ∧
        ∃ v : Nat, parseHexNat (sha256 (blockSigniture b)) = some v ∧
          (v : Int) ≤ b.difficulty)) ∧
    ∀ s : BlockState,
      blockGetValid sha256 { b with state := s } = blockGetValid sha256 b := by
  constructor
  · unfold blockGetValid
    cases hp : parseHexNat (sha256 (blockSigniture b)) with
    | none => simp [jsLE, hp]
    | some v => simp [jsLE, hp]
  · intro s
    rfl

/-- C5, counterexample: `createQueuedData` with an absent payload does not
fail; it returns a fully formed Queued Data object whose payload accessor
yields `undefined`. -/
theorem createQueuedData_absent_payload_cex :
    createQueuedData "gen" { id := some "x", data := none } =
        { id := "x", data := none } ∧
      (createQueuedData "gen" { id := some "x", data := none }).data = none :=
  ⟨rfl, rfl⟩

/-- C5 (amended): `createQueuedData` performs no validation at all: for every
options object (payload present or absent) it succeeds, storing the payload
unchanged and the supplied truthy id (or the generated token). -/
theorem createQueuedData_no_validation (genId : String) (o : QDOpts) :
    (createQueuedData genId o).data = o.data ∧
      (createQueuedData genId o).id = jsOrStr o.id genId :=
  ⟨rfl, rfl⟩

/-- C10: a falsy difficulty option (0, or an absent value) is replaced by the
default constant, and only a truthy numeric difficulty option is kept. -/
theorem createBlockchain_difficulty_default (n : Int) :
    (createBlockchain (some 0)).difficulty =
        1766847064778384329583297500742918515827483896875618958121606201292619775 ∧
      (createBlockchain none).difficulty =
        1766847064778384329583297500742918515827483896875618958121606201292619775 ∧
      (n ≠ 0 → (createBlockchain (some n)).difficulty = n) := by
  refine ⟨rfl, rfl, fun h => ?_⟩
  simp [createBlockchain, jsOrInt, h]

/-- C10, witness: a chain created with difficulty option 5 keeps 5. -/
theorem createBlockchain_difficulty_default_witness :
    (createBlockchain (some 5)).difficulty = 5 :=
  (createBlockchain_difficulty_default 5).2.2 (by decide)

/-- C4, counterexample: enqueueing entry X (payload P) on an idle empty chain
shifts it straight into construction, so the queue length just before the
abort is 0; the abort unshifts the entry back, making the length 1 — the
abort does not restore the queue length to its pre-abort value, it increments
it (the committed chain, head identity and idle status behave as claimed). -/
theorem chainAbort_pre_abort_length_cex :
    enqueueData "gq" "gb" 7 (createBlockchain (some 9))
        { id := some "X", data := some (Payload.str "P") } = Except.ok stA ∧
      stA.queue.length = 0 ∧
      (chainAbort stA).queue.length = 1 ∧
      (chainAbort stA).queue.head? = some qdA ∧
      (chainAbort stA).chain = stA.chain ∧
      (chainAbort stA).block = none :=
  ⟨rfl, rfl, rfl, rfl, rfl, rfl⟩

/-- C4 (amended): aborting an in-flight construction puts the exact dequeued
Queued Data object (same id and payload) back at the queue head — so the
queue is one longer than immediately before the abort, restoring the length
it had before the construction dequeued the entry — leaves the committed
chain and the difficulty unchanged, and does not start another construction
(no block is in flight afterwards). -/
theorem chainAbort_requeues_entry (st : ChainState) (b : Block)
    (qd : QueuedData) (hact : st.block = some (b, qd))
    (hst : b.state = BlockState.INITIALIZING) :
    chainAbort st = { st with queue := qd :: st.queue, block := none } ∧
      (chainAbort st).queue.head? = some qd ∧
      (chainAbort st).queue.length = st.queue.length + 1 ∧
      (chainAbort st).chain = st.chain ∧
      (chainAbort st).difficulty = st.difficulty ∧
      (chainAbort st).block = none := by
  have h : chainAbort st = { st with queue := qd :: st.queue, block := none } := by
    unfold chainAbort
    rw [hact]
    simp [hst]
  exact ⟨h, by rw [h]; rfl, by rw [h]; simp, by rw [h], by rw [h], by rw [h]⟩

/-- C4, witness: the amended round-trip evaluated on the concrete in-flight
state `stA` reached by the counterexample's enqueue. -/
theorem chainAbort_requeues_entry_witness :
    chainAbort stA = { stA with queue := qdA :: stA.queue, block := none } ∧
      (chainAbort stA).queue.head? = some qdA ∧
      (chainAbort stA).queue.length = stA.queue.length + 1 ∧
      (chainAbort stA).chain = stA.chain ∧
      (chainAbort stA).difficulty = stA.difficulty ∧
      (chainAbort stA).block = none :=
  chainAbort_requeues_entry stA bA qdA rfl rfl

/-- C6: `addBlock` (spec-modelled, absent from the sources under src) called
with block fields whose index is not the length of the committed list returns
false and hands back the chain state completely unchanged. -/
theorem addBlock_wrong_index_rejected (sha256 : String → String)
    (genId genId2 : String) (now : Int) (st : ChainState)
    (fields : BlockOpts) (entryId : String) (b : Block)
    (hc : createBlock genId now fields = Except.ok b)
    (hi : b.index ≠ (st.chain.length : Int)) :
    addBlock sha256 genId genId2 now st fields entryId =
      Except.ok (false, st) := by
  unfold addBlock
  rw [hc]
  have hdec : decide (b.index = (st.chain.length : Int)) = false :=
    decide_eq_false hi
  simp [hdec]

/-- C6, witness: submitting fields with index 1 to the empty chain `stW6`
(next index 0) is rejected with the state unchanged. -/
theorem addBlock_wrong_index_rejected_witness :
    addBlock sampleSha "g" "g2" 3 stW6 fields6 "X" = Except.ok (false, stW6) :=
  addBlock_wrong_index_rejected sampleSha "g" "g2" 3 stW6 fields6 "X" b6 rfl
    (by decide)

/-- C9: when the decoded worker message is unparseable (`JSON.parse` throws),
`parseJSON` degrades it to the empty request object and the handler fails the
required-signature assertion — it never propagates the parse failure. -/
theorem worker_malformed_request (parse : String → Except String WorkerRequest)
    (decode : String → String) (sha256 : String → String) (fuel : Nat)
    (enc msg : String) (hp : parse (decode enc) = Except.error msg) :
    parseJSON parse (decode enc) = emptyRequest ∧
      workerOnMessage parse decode sha256 fuel enc =
        Except.error WorkerFailure.assertionFailure := by
  have h1 : parseJSON parse (decode enc) = emptyRequest := by
    unfold parseJSON
    rw [hp]
  refine ⟨h1, ?_⟩
  unfold workerOnMessage
  rw [h1]
  rfl

/-- C9, witness: a decoder that always throws leads to the assertion failure,
not a parse failure. -/
theorem worker_malformed_request_witness :
    parseJSON parseBad "zz" = emptyRequest ∧
      workerOnMessage parseBad (fun s => s) sampleSha 5 "zz" =
        Except.error WorkerFailure.assertionFailure :=
  worker_malformed_request parseBad (fun s => s) sampleSha 5 "zz"
    "unexpected token" rfl

/-- Helper: when the bounded proof-of-work loop returns, the returned nonce is
the first counter value past the start whose digest does not exceed the
difficulty, and the returned hash is that nonce's digest. -/
theorem powSearch_sound (sha256 : String → String) (sig : String) (d : Int) :
    ∀ (fuel : Nat) (start n : Int) (h : String),
      powSearch sha256 sig d fuel start = some (n, h) →
      start < n ∧ h = sha256 (sig ++ toString n) ∧
        jsGT (parseHexNat (sha256 (sig ++ toString n))) d = false ∧
        ∀ m : Int, start < m → m < n →
          jsGT (parseHexNat (sha256 (sig ++ toString m))) d = true := by
  intro fuel
  induction fuel with
  | zero =>
    intro start n h hp
    simp [powSearch] at hp
  | succ k ih =>
    intro start n h hp
    simp only [powSearch] at hp
    by_cases hg : jsGT (parseHexNat (sha256 (sig ++ toString (start + 1)))) d = true
    · rw [if_pos hg] at hp
      obtain ⟨h1, h2, h3, h4⟩ := ih (start + 1) n h hp
      refine ⟨by omega, h2, h3, ?_⟩
      intro m hm1 hm2
      by_cases hm : m = start + 1
      · subst hm
        exact hg
      · exact h4 m (by omega) hm2
    · rw [if_neg hg] at hp
      simp only [Option.some.injEq, Prod.mk.injEq] at hp
      obtain ⟨rfl, rfl⟩ := hp
      refine ⟨by omega, rfl, ?_, ?_⟩
      · cases hval : jsGT (parseHexNat (sha256 (sig ++ toString (start + 1)))) d
        · rfl
        · exact absurd hval hg
      · intro m hm1 hm2
        exact ((by omega : False)).elim

set_option maxRecDepth 8000 in
/-- C7, counterexample: a block constructed without a supplied hash but with a
supplied nonce of 3 starts its search at nonce 4, so even at the maximum
256-bit difficulty the accepted (stored) nonce is 4, not the claimed first
attempt 0. -/
theorem generateHash_supplied_nonce_cex :
    createBlock "g" 1 c7xopts = Except.ok c7xblock ∧
      generateHash sampleSha 1 c7xblock =
        { c7xblock with nonce := 4, hash := some "00",
                        state := BlockState.READY } ∧
      (4 : Int) ≠ 0 :=
  ⟨rfl, rfl, by decide⟩

/-- C7 (amended): for every block constructed without a supplied hash and
without a supplied truthy nonce (so its counter starts at the sentinel -1 and
the probes are 0, 1, 2, ...), if the difficulty is the maximum 256-bit value
the very first attempt, nonce 0, is accepted and the resulting hash is the
digest of the signature concatenated with the string 0; and in general
whenever the search finishes READY, the stored hash is the digest of the
signature plus the stored nonce, that digest is at most the difficulty, and
every earlier probe from 0 upward had a digest exceeding the difficulty.
The digests of the external SHA256 are assumed to be hex strings of 256-bit
values. -/
theorem generateHash_first_valid_nonce (sha256 : String → String)
    (hsha : ∀ s : String,
      ∃ v : Nat, parseHexNat (sha256 s) = some v ∧ v < 2 ^ 256)
    (genId : String) (now : Int) (o : BlockOpts) (b : Block)
    (hh : o.hash = none) (hn : o.nonce = none)
    (hc : createBlock genId now o = Except.ok b) :
    (b.difficulty = 2 ^ 256 - 1 →
      generateHash sha256 1 b =
        { b with nonce := 0,
                 hash := some (sha256 (searchSigniture b ++ "0")),
                 state := BlockState.READY }) ∧
    ∀ (fuel : Nat) (r : Block), generateHash sha256 fuel b = r →
      r.state = BlockState.READY →
      r.hash = some (sha256 (searchSigniture b ++ toString r.nonce)) ∧
        (∃ v : Nat,
          parseHexNat (sha256 (searchSigniture b ++ toString r.nonce)) =
              some v ∧ (v : Int) ≤ b.difficulty) ∧
        0 ≤ r.nonce ∧
        ∀ m : Int, 0 ≤ m → m < r.nonce → ∀ w : Nat,
          parseHexNat (sha256 (searchSigniture b ++ toString m)) = some w →
          (w : Int) > b.difficulty := by
  obtain ⟨hbn, hbh, hbs, -⟩ := createBlock_ok_fields genId now o b hc
  rw [hn] at hbn
  rw [hh] at hbh
  have hbn2 : b.nonce = -1 := hbn
  have hbh2 : b.hash = none := hbh
  constructor
  · intro hd
    obtain ⟨v, hv, hlt⟩ := hsha (searchSigniture b ++ "0")
    have hstr : toString (b.nonce + 1) = "0" := by rw [hbn2]; rfl
    have hacc : jsGT (parseHexNat
        (sha256 (searchSigniture b ++ toString (b.nonce + 1)))) b.difficulty
        = false := by
      rw [hstr, hv, hd]
      simp only [jsGT]
      rw [decide_eq_false]
      push_cast
      omega
    unfold generateHash
    rw [hbh2]
    simp only [Option.isSome_none, Bool.false_eq_true, if_false]
    unfold powSearch
    rw [if_neg (by rw [hacc]; exact Bool.false_ne_true)]
    rw [hstr]
    rw [show b.nonce + 1 = 0 from by omega]
  · intro fuel r hr hrs
    unfold generateHash at hr
    rw [hbh2] at hr
    simp only [Option.isSome_none, Bool.false_eq_true, if_false] at hr
    cases hps : powSearch sha256 (searchSigniture b) b.difficulty fuel b.nonce with
    | none =>
      rw [hps] at hr
      rw [← hr] at hrs
      rw [hbs] at hrs
      exact BlockState.noConfusion hrs
    | some pr =>
      obtain ⟨n2, h2⟩ := pr
      rw [hps] at hr
      obtain ⟨hlt2, hheq, hacc, hmin⟩ :=
        powSearch_sound sha256 (searchSigniture b) b.difficulty fuel b.nonce
          n2 h2 hps
      have hr2 : ({ b with nonce := n2, hash := some h2,
                           state := BlockState.READY } : Block) = r := hr
      subst hr2
      refine ⟨?_, ?_, ?_, ?_⟩
      · show some h2 = some (sha256 (searchSigniture b ++ toString n2))
        rw [hheq]
      · obtain ⟨v, hv, -⟩ := hsha (searchSigniture b ++ toString n2)
        refine ⟨v, hv, ?_⟩
        rw [hv] at hacc
        simp only [jsGT, decide_eq_false_iff_not, not_lt] at hacc
        exact hacc
      · show (0 : Int) ≤ n2
        rw [hbn2] at hlt2
        omega
      · intro m hm0 hmn w hw
        have hgt := hmin m (by rw [hbn2]; omega) hmn
        rw [hw] at hgt
        simpa [jsGT] using hgt

/-- C7, witness: on the concrete fresh block `c7block` at the maximum 256-bit
difficulty, with a digest function whose hex digests are 00, the search stores
nonce 0 and the digest of the signature plus the string 0. -/
theorem generateHash_first_valid_nonce_witness :
    generateHash sampleSha 1 c7block =
      { c7block with nonce := 0,
                     hash := some (sampleSha (searchSigniture c7block ++ "0")),
                     state := BlockState.READY } :=
  (generateHash_first_valid_nonce sampleSha
      (fun _ => ⟨0, rfl, Nat.pos_pow_of_pos 256 (by decide)⟩)
      "g" 3 c7opts c7block rfl rfl rfl).1 rfl

/-- C8: assigning a non-numeric difficulty throws the type error (so the
prior state, including its stored difficulty, is retained); assigning a
numeric value only replaces the stored difficulty — the committed chain, the
queue and the in-flight block (hence its difficulty) are untouched — and the
next block constructed afterwards is created with the new difficulty. -/
theorem setDifficulty_spec (st : ChainState) (v : JsValue) (n : Int) :
    ((∀ m : Int, v ≠ JsValue.num m) →
      setDifficulty st v =
        Except.error "proof of work difficulty should be a number") ∧
    setDifficulty st (JsValue.num n) = Except.ok { st with difficulty := n } ∧
    ({ st with difficulty := n }.chain = st.chain ∧
      { st with difficulty := n }.block = st.block ∧
      { st with difficulty := n }.queue = st.queue) ∧
    ∀ (genId : String) (now : Int) (qd : QueuedData) (rest : List QueuedData)
      (p : Payload) (ph : String),
      st.block = none → st.queue = qd :: rest → qd.data = some p →
      nextPreviousHash st = some ph →
      (constructNextBlock genId now { st with difficulty := n }).map
          (fun s => s.block.map fun a => a.1.difficulty) =
        Except.ok (some n) := by
  refine ⟨?_, rfl, ⟨rfl, rfl, rfl⟩, ?_⟩
  · intro h
    cases v with
    | num m => exact absurd rfl (h m)
    | str s => rfl
    | boolean b => rfl
    | nullV => rfl
    | undef => rfl
  · intro genId now qd rest p ph h1 h2 h3 h4
    obtain ⟨ch, q, bl, df⟩ := st
    simp only at h1 h2 h4
    subst h1
    subst h2
    unfold constructNextBlock
    simp only [Option.isSome_none, Bool.false_eq_true, if_false]
    rw [show nextPreviousHash ⟨ch, qd :: rest, none, n⟩ = some ph from h4]
    unfold createBlock
    simp only [h3]
    rfl

/-- C8, witness: on the idle one-entry chain `stW8`, a string assignment
throws the type error, the assignment of 3 only updates the difficulty, and
the next constructed block carries difficulty 3. -/
theorem setDifficulty_spec_witness :
    setDifficulty stW8 (JsValue.str "a") =
        Except.error "proof of work difficulty should be a number" ∧
      setDifficulty stW8 (JsValue.num 3) =
        Except.ok { stW8 with difficulty := 3 } ∧
      (constructNextBlock "g" 7 { stW8 with difficulty := 3 }).map
          (fun s => s.block.map fun a => a.1.difficulty) =
        Except.ok (some 3) := by
  obtain ⟨h1, h2, -, h4⟩ := setDifficulty_spec stW8 (JsValue.str "a") 3
  exact ⟨h1 (fun m h => by cases h), h2,
    h4 "g" 7 qdW8 [] (Payload.str "P") "" rfl rfl rfl rfl⟩

/-- C2, witness: the concrete pre-solved block `c2block` created from
`c2opts` (supplied hash abc) keeps the hash, stays INITIALIZING, and the
search never runs on it. -/
theorem createBlock_supplied_hash_no_search_witness :
    c2block.state = BlockState.INITIALIZING ∧ c2block.hash = some "abc" ∧
      generateHash sampleSha 5 c2block = c2block :=
  createBlock_supplied_hash_no_search "g" 3 c2opts "abc" c2block sampleSha 5
    rfl (by decide) rfl
